import Mathlib

/-!
Verification of the wplacer token-acquisition subsystem
(`src/LOAD_UNPACKED/background.js`) against its natural-language
specification.  The JavaScript is shallowly embedded: timestamps are
integers (milliseconds, as returned by `Date.now()`), the mutable
`tokenWaitStartTime` global is explicit state of type `Option Int`,
and host effects (message broadcasts, server posts, cache writes)
are returned as data.
-/

namespace Wplacer

/-- `TOKEN_WAIT_THRESHOLD_MS = 30000` (background.js line 2). -/
def TOKEN_WAIT_THRESHOLD_MS : Int := 30000

/-- Result of one invocation of `pollForTokenRequest` (background.js
lines 32-115) when the server response was ok, recording the new value
of `tokenWaitStartTime` and which side effects fired during the tick. -/
structure TickResult where
  newStart : Option Int
  overdueClear : Bool
  halfClear : Bool
  reloaded : Bool
  deriving Repr, DecidableEq

/-- Shallow embedding of the body of `pollForTokenRequest` (background.js
lines 53-111).  `start?` is `tokenWaitStartTime` on entry; `needed` is
`data.needed`; `autoReload`/`autoClear` are `settings.autoReload` /
`settings.autoClear`.  The four time arguments are the values of the
successive `Date.now()` calls: `tStart` at line 58 (first-wait branch),
`tCheck` at line 69 (`waitTime` computation), `tReset` at line 82
(timer reset after the overdue clear), `tHalf` at line 92 (half-threshold
check after the reload). -/
def pollTick (start? : Option Int) (needed autoReload autoClear : Bool)
    (tStart tCheck tReset tHalf : Int) : TickResult :=
  if needed then
    -- lines 54-98
    let afterWait : Option Int × Bool :=
      match start? with
      | none =>
        -- lines 57-66: start tracking
        (some tStart, false)
      | some s0 =>
        -- lines 68-84: threshold check
        let waitTime := tCheck - s0
        if waitTime > TOKEN_WAIT_THRESHOLD_MS ∧ autoClear = true then
          (some tReset, true)
        else
          (some s0, false)
    let start1 := afterWait.1
    let overdue := afterWait.2
    if autoReload then
      -- lines 87-95: reload, then the half-threshold clear
      let cur : Int := match start1 with | some s => s | none => 0
      let half := autoClear = true ∧ tHalf - cur > TOKEN_WAIT_THRESHOLD_MS / 2
      { newStart := start1, overdueClear := overdue,
        halfClear := decide half, reloaded := true }
    else
      { newStart := start1, overdueClear := overdue,
        halfClear := false, reloaded := false }
  else
    -- lines 100-110: token no longer needed, reset the timer
    { newStart := none, overdueClear := false,
      halfClear := false, reloaded := false }

/-- A `SEND_TOKEN` / `tokenPairReceived` request, with each field either
absent (`none`) or a string; JavaScript truthiness of such a field is
"present and non-empty". -/
def jsTruthy : Option String → Bool
  | none => false
  | some s => !s.isEmpty

/-- `x || null` on an optional string field. -/
def jsOrNull (o : Option String) : Option String :=
  if jsTruthy o then o else none

/-- Body posted to the control server's `/t` endpoint. -/
structure TPost where
  t : Option String
  pawtect : Option String
  fp : Option String
  colors : Option String
  deriving Repr, DecidableEq

/-- Shallow embedding of the `SEND_TOKEN` branch of the message listener
(background.js lines 696-715): it unconditionally resets
`tokenWaitStartTime` to `null`, then posts the token to the server. -/
def handleSendToken (start? : Option Int)
    (token pawtect fp colors : Option String) : Option Int × TPost :=
  let _ := start?
  (none, { t := token, pawtect := jsOrNull pawtect,
           fp := jsOrNull fp, colors := jsOrNull colors })

/-- Shallow embedding of the `tokenPairReceived` branch of the message
listener (background.js lines 716-743).  Returns the new
`tokenWaitStartTime`, whether the response reported success, and the
server post when one was made. -/
def handleTokenPairReceived (start? : Option Int)
    (turnstile pawtect fp colors : Option String) :
    Option Int × Bool × Option TPost :=
  if jsTruthy turnstile ∧ jsTruthy pawtect then
    (none, true, some { t := turnstile, pawtect := pawtect,
                        fp := jsOrNull fp, colors := jsOrNull colors })
  else
    (start?, false, none)

/-! ### String helpers modelling the regular expressions of the source -/

/-- `needle` is a prefix of `hay` (character lists). -/
def listIsPrefix : List Char → List Char → Bool
  | [], _ => true
  | _ :: _, [] => false
  | a :: as, b :: bs => a = b && listIsPrefix as bs

/-- `needle` occurs as a contiguous sublist of `hay`. -/
def listContains (needle : List Char) : List Char → Bool
  | [] => needle.isEmpty
  | b :: bs => listIsPrefix needle (b :: bs) || listContains needle bs

/-- `needle` occurs as a substring of `hay`. -/
def strContains (hay needle : String) : Bool :=
  listContains needle.data hay.data

/-- The placement-write path pattern `/\/s0\/pixel\//` (background.js
lines 517 and 548): the URL contains `/s0/pixel/`. -/
def pixelUrlMatch (url : String) : Bool :=
  strContains url "/s0/pixel/"

/-- The integrity-module textual signature test
`/get_pawtected_endpoint_payload|__wbindgen_malloc/i` (background.js
line 416), on the fetched chunk contents. -/
def pawtectSignature (text : String) : Bool :=
  let t := text.toLower
  listContains "get_pawtected_endpoint_payload".data t.data ||
  listContains "__wbindgen_malloc".data t.data

/-- Matches `\.js(\?.*)?$` at the head of the list: `.js` then either
end of string or a `?` query suffix. -/
def jsEnd : List Char → Bool
  | '.' :: 'j' :: 's' :: rest =>
    match rest with
    | [] => true
    | c :: _ => c = '?'
  | _ => false

/-- Matches `.*\.js(\?.*)?$` against the whole list. -/
def jsTailMatch : List Char → Bool
  | [] => false
  | b :: bs => jsEnd (b :: bs) || jsTailMatch bs

/-- Scans for an occurrence of `/_app/immutable/chunks/` followed by a
tail matching `.*\.js(\?.*)?$`. -/
def chunkScan : List Char → Bool
  | [] => false
  | b :: bs =>
    (listIsPrefix "/_app/immutable/chunks/".data (b :: bs) &&
      jsTailMatch ((b :: bs).drop "/_app/immutable/chunks/".length)) ||
    chunkScan bs

/-- The chunk-candidate filter `/\/_app\/immutable\/chunks\/.*\.js(\?.*)?$/i`
(background.js line 398), case-insensitive. -/
def isChunkCandidate (url : String) : Bool :=
  chunkScan url.toLower.data

/-! ### Module Invocation Bridge (`computePawtect`, background.js 476-509) -/

/-- Bytes of the wasm linear memory (`wasm.memory.buffer`). -/
def readBytes (mem : Nat → Nat) (ptr len : Nat) : List Nat :=
  (List.range len).map fun i => mem (ptr + i)

/-- The shapes the module's `get_pawtected_endpoint_payload` result can
take (background.js lines 493-505): a two-element `[ptr, len]` array, a
native string, an object with numeric `ptr`/`len` fields, or anything
else. -/
inductive ModuleOut where
  | arr (ptr len : Nat)
  | str (s : String)
  | obj (ptr len : Nat)
  | other
  deriving Repr, DecidableEq

/-- The token-decoding branch of `computePawtect` (background.js lines
492-505).  `dec` is the host `TextDecoder` applied to a byte slice of
module memory; `none` is the `token = null` outcome for an unrecognized
shape. -/
def decodePawtectOut (dec : List Nat → String) (mem : Nat → Nat) :
    ModuleOut → Option String
  | .arr ptr len => some (dec (readBytes mem ptr len))
  | .str s => some s
  | .obj ptr len => some (dec (readBytes mem ptr len))
  | .other => none

/-- A `WPLACER_PAWTECT_TOKEN` window broadcast (`window.postMessage`). -/
structure PawtectBroadcast where
  token : Option String
  origin : String
  deriving Repr, DecidableEq

/-- Tail of `computePawtect` after the wasm call returned `out`
(background.js lines 492-508): decode the token, post the
`WPLACER_PAWTECT_TOKEN` broadcast with origin `'pixel'` (line 507),
and return the token. -/
def computePawtectFinish (dec : List Nat → String) (mem : Nat → Nat)
    (out : ModuleOut) : PawtectBroadcast × Option String :=
  let token := decodePawtectOut dec mem out
  ({ token := token, origin := "pixel" }, token)

/-- The broadcast posted by the `seedPawtect` page function
(background.js line 620): origin `'seed'`. -/
def seedPawtectBroadcast (token : Option String) : PawtectBroadcast :=
  { token := token, origin := "seed" }

/-- The broadcast posted by the `computePawtectForT` page function
(background.js line 681): origin `'simple'`. -/
def computePawtectForTBroadcast (token : Option String) : PawtectBroadcast :=
  { token := token, origin := "simple" }

/-! ### Request Interceptor (`injectPawtect`, background.js 339-577) -/

/-- One outbound fetch call as seen by the wrapper (background.js lines
512-534): the resolved request URL and method, the logical body string,
whether `init.body` was already a string (line 519), and whether
`req.clone().text()` succeeds (lines 525-529). -/
structure FetchCall where
  url : String
  method : String
  body : String
  bodyIsString : Bool
  cloneOk : Bool
  deriving Repr, DecidableEq

/-- A fetch-like primitive: maps a call to the `computePawtect`
invocations it triggers and the call it forwards to the network. -/
def FetchFn : Type := FetchCall → List (String × String) × FetchCall

/-- The unwrapped `window.fetch`: performs the network call with the
arguments it was given and triggers no computation. -/
def originalFetch : FetchFn := fun c => ([], c)

/-- The `computePawtect` invocations made by one pass through the fetch
wrapper's body (background.js lines 513-532): a POST whose URL matches
the pixel pattern computes on the string `init.body` when available,
otherwise on the cloned body text when the clone read succeeds. -/
def hookEvents (c : FetchCall) : List (String × String) :=
  if c.method = "POST" ∧ pixelUrlMatch c.url = true then
    if c.bodyIsString then [(c.url, c.body)]
    else if c.cloneOk then [(c.url, c.body)]
    else []
  else []

/-- `window.fetch = async (...args) => { ...; return originalFetch(...args) }`
(background.js lines 511-534): run the hook body, then forward the
original arguments unchanged to the wrapped primitive. -/
def wrapFetch (f : FetchFn) : FetchFn := fun c =>
  let r := f c
  (hookEvents c ++ r.1, r.2)

/-- Page-context hook state: the `window.__wplacerPawtectHooked`
idempotency flag (background.js line 347) and how many wrapper layers
have been applied to `window.fetch`. -/
structure PageHookState where
  hooked : Bool
  wrapDepth : Nat
  deriving Repr, DecidableEq

/-- The installation guard of `injectPawtect` (background.js lines
347-348): if the flag is set, return without touching `window.fetch`;
otherwise set the flag and wrap the primitive once. -/
def installPawtectHook (w : PageHookState) : PageHookState :=
  if w.hooked then w else { hooked := true, wrapDepth := w.wrapDepth + 1 }

/-- `window.fetch` after `n` wrapper layers. -/
def iterWrap : Nat → FetchFn
  | 0 => originalFetch
  | n + 1 => wrapFetch (iterWrap n)

/-- The page's current `window.fetch`. -/
def pageFetch (w : PageHookState) : FetchFn := iterWrap w.wrapDepth

/-! ### Module Locator (background.js 353-474) -/

/-- The hard-coded fallback chunk path (background.js lines 445-446). -/
def chunkPath : String := "/_app/immutable/chunks/BdJF80pX.js"

/-- `getOptimizedPawtectUrl` (background.js lines 353-368): the durably
cached `localStorage` path wins; otherwise the in-memory
`window.__wplacerPawtectChunk`; otherwise null. -/
def getOptimizedPawtectUrl (cachedPath globalChunk : Option String) :
    Option String :=
  match cachedPath with
  | some c => some c
  | none => globalChunk

/-- Result of a discovery scan: the chunk URL found, and the durable
cache contents afterwards. -/
structure DiscoverResult where
  found : Option String
  cacheAfter : Option String
  deriving Repr, DecidableEq

/-- The candidate loop of `discoverPawtectChunk` (background.js lines
404-428): for each candidate in order, fetch it (`none` models a failed
or non-ok fetch, which is skipped) and return the first whose text
matches the signature. -/
def discoverLoop (fetched : String → Option String) :
    List String → Option String
  | [] => none
  | u :: rest =>
    match fetched u with
    | none => discoverLoop fetched rest
    | some text =>
      if pawtectSignature text then some u else discoverLoop fetched rest

/-- `discoverPawtectChunk` (background.js lines 370-437): filter the
visible resource URLs to chunk candidates, scan them in enumeration
order, and persist the first match to the durable cache (line 420); on
no match return null and leave the cache unchanged. -/
def discoverPawtectChunk (urls : List String)
    (fetched : String → Option String) (cacheBefore : Option String) :
    DiscoverResult :=
  let candidates := urls.filter fun u => isChunkCandidate u
  match discoverLoop fetched candidates with
  | some u => { found := some u, cacheAfter := some u }
  | none => { found := none, cacheAfter := cacheBefore }

/-- Result of `importModule`: the URL whose import succeeded (the module
itself is opaque, so the URL stands for it), and whether the discovery
scan was entered. -/
structure ImportResult where
  modUrl : Option String
  discoveryEntered : Bool
  deriving Repr, DecidableEq

/-- `importModule` (background.js lines 439-474): build the fast
candidate list — cached/known URL first, then the two hard-coded
fallbacks — and try each with `import` (`importOk` is the oracle for a
successful dynamic import); only when every fast candidate fails is the
discovery scan entered, and its result tried in turn.  The function is
total: exhaustion yields `none`, never an exception. -/
def importModule (cachedPath globalChunk : Option String) (origin : String)
    (importOk : String → Bool) (urls : List String)
    (fetched : String → Option String) : ImportResult :=
  let cachedUrl := getOptimizedPawtectUrl cachedPath globalChunk
  let fastCandidates :=
    (match cachedUrl with | some u => [u] | none => []) ++
    [origin ++ chunkPath, "https://wplace.live" ++ chunkPath]
  match fastCandidates.find? importOk with
  | some u => { modUrl := some u, discoveryEntered := false }
  | none =>
    match (discoverPawtectChunk urls fetched cachedPath).found with
    | some du =>
      if importOk du then { modUrl := some du, discoveryEntered := true }
      else { modUrl := none, discoveryEntered := true }
    | none => { modUrl := none, discoveryEntered := true }

/-! ### Shared concrete inputs and helper lemmas -/

/-- The placement-write request of the end-to-end scenario: a POST to the
pixel endpoint with the JSON body
`\x7b"colors":[0],"coords":[1,1],"fp":"x","t":"y"\x7d` passed as an
`init.body` string. -/
def pixelPostCall : FetchCall :=
  { url := "https://backend.wplace.live/s0/pixel/1/1"
    method := "POST"
    body := "\x7b\"colors\":[0],\"coords\":[1,1],\"fp\":\"x\",\"t\":\"y\"\x7d"
    bodyIsString := true
    cloneOk := true }

/-- The candidate loop of the discovery scan returns the first element,
in list order, whose fetch succeeds and whose text matches the
integrity-module signature. -/
theorem discoverLoop_eq_find (fetched : String → Option String) :
    ∀ l : List String,
      discoverLoop fetched l
        = l.find? fun u => ((fetched u).map pawtectSignature).getD false
  | [] => rfl
  | u :: rest => by
    rw [discoverLoop, List.find?]
    cases h : fetched u with
    | none => simp [h, discoverLoop_eq_find fetched rest]
    | some t =>
      by_cases hs : pawtectSignature t <;>
        simp [h, hs, discoverLoop_eq_find fetched rest]

/-! ### C1 -/

/-- C1 counterexample: at exactly 30000 ms of elapsed wait with
auto-clear enabled, the elapsed time is ≥ 30000 ms yet the overdue
transition does not fire, because the code compares with strict `>`
(background.js line 79). -/
theorem c1_boundary_counterexample :
    (30000 : Int) - 0 ≥ TOKEN_WAIT_THRESHOLD_MS
    ∧ (pollTick (some 0) true false true 0 30000 30000 30000).overdueClear
        = false := by
  decide

/-- C1 (amended): on a poll tick in the WAITING state, the overdue
transition fires iff the elapsed time since the wait started is
strictly greater than 30000 ms and auto-clear is enabled; when it
fires, the wait timer is reset to the current time, otherwise it is
left unchanged. -/
theorem c1_overdue_iff_strict (s0 : Int) (aR aC : Bool)
    (tStart tCheck tReset tHalf : Int) :
    ((pollTick (some s0) true aR aC tStart tCheck tReset tHalf).overdueClear
        = true
      ↔ tCheck - s0 > TOKEN_WAIT_THRESHOLD_MS ∧ aC = true)
    ∧ (pollTick (some s0) true aR aC tStart tCheck tReset tHalf).newStart
      = if tCheck - s0 > TOKEN_WAIT_THRESHOLD_MS ∧ aC = true
        then some tReset else some s0 := by
  by_cases hC : tCheck - s0 > TOKEN_WAIT_THRESHOLD_MS ∧ aC = true <;>
    cases aR <;> simp [pollTick, hC]

/-- C1 witness: at 30001 ms elapsed with auto-clear enabled the overdue
transition fires, and at 29999 ms it does not. -/
theorem c1_overdue_iff_strict_witness :
    (pollTick (some 0) true true true 0 30001 30001 30001).overdueClear = true
    ∧ (pollTick (some 0) true true true 0 29999 29999 29999).overdueClear
        = false := by
  constructor
  · exact (c1_overdue_iff_strict 0 true true 0 30001 30001 30001).1.mpr
      (by decide)
  · have h := (c1_overdue_iff_strict 0 true true 0 29999 29999 29999).1
    revert h
    decide

/-! ### C2 -/

/-- C2: whenever the wait timer is running, a `SEND_TOKEN` message, a
`tokenPairReceived` message carrying both tokens, or a `needed = false`
poll result clears the wait state, returning the tracker to IDLE. -/
theorem c2_token_arrival_clears_wait (s0 : Int)
    (token pawtect fp colors turnstile pw fp2 colors2 : Option String)
    (aR aC : Bool) (tStart tCheck tReset tHalf : Int) :
    (handleSendToken (some s0) token pawtect fp colors).1 = none
    ∧ (jsTruthy turnstile = true → jsTruthy pw = true →
        (handleTokenPairReceived (some s0) turnstile pw fp2 colors2).1 = none)
    ∧ (pollTick (some s0) false aR aC tStart tCheck tReset tHalf).newStart
        = none := by
  refine ⟨rfl, ?_, ?_⟩
  · intro h1 h2
    simp [handleTokenPairReceived, h1, h2]
  · simp [pollTick]

/-- C2 witness: a concrete running wait timer cleared through each of
the three channels. -/
theorem c2_token_arrival_clears_wait_witness :
    (handleSendToken (some 5) (some "tok") none none none).1 = none
    ∧ (handleTokenPairReceived (some 5) (some "t") (some "p") none none).1
        = none
    ∧ (pollTick (some 5) false true true 0 0 0 0).newStart = none :=
  ⟨(c2_token_arrival_clears_wait 5 (some "tok") none none none
      (some "t") (some "p") none none true true 0 0 0 0).1,
   (c2_token_arrival_clears_wait 5 (some "tok") none none none
      (some "t") (some "p") none none true true 0 0 0 0).2.1
      (by decide) (by decide),
   (c2_token_arrival_clears_wait 5 (some "tok") none none none
      (some "t") (some "p") none none true true 0 0 0 0).2.2⟩

/-! ### C3 -/

/-- C3: the wrapped fetch primitive always forwards exactly the original
call to the original fetch, and a POST whose URL matches the
placement-write pattern and whose body was given as a string triggers
exactly one computation call receiving the exact body string. -/
theorem c3_fetch_wrapper_transparent (c : FetchCall) :
    (wrapFetch originalFetch c).2 = c
    ∧ (c.method = "POST" → pixelUrlMatch c.url = true →
        c.bodyIsString = true →
        (wrapFetch originalFetch c).1 = [(c.url, c.body)]) := by
  refine ⟨rfl, ?_⟩
  intro h1 h2 h3
  simp [wrapFetch, originalFetch, hookEvents, h1, h2, h3]

/-- C3 witness: the scenario POST to the pixel endpoint is forwarded
unchanged and produces exactly one computation call with the exact
body string. -/
theorem c3_fetch_wrapper_transparent_witness :
    (wrapFetch originalFetch pixelPostCall).2 = pixelPostCall
    ∧ (wrapFetch originalFetch pixelPostCall).1
        = [(pixelPostCall.url, pixelPostCall.body)] :=
  ⟨(c3_fetch_wrapper_transparent pixelPostCall).1,
   (c3_fetch_wrapper_transparent pixelPostCall).2 rfl (by decide) rfl⟩

/-! ### C4 -/

/-- C4 counterexample: with a cached location present but whose
dynamic import fails (as do the hard-coded fallbacks), `importModule`
does enter the discovery scan, so a cached location alone does not
prevent discovery. -/
theorem c4_cached_discovery_counterexample :
    (importModule (some "https://wplace.live/_app/immutable/chunks/old.js")
      none "https://wplace.live" (fun _ => false) []
      (fun _ => none)).discoveryEntered = true := by
  decide

/-- C4 (amended): the locator tries the durably cached URL (or, when
absent, the in-memory last-known URL) before the hard-coded fallbacks
and the discovery scan; when the cached (resp. in-memory) location is
present and its import succeeds, it is returned and the discovery scan
is never entered.  The locator is total, returning `none` rather than
throwing when everything fails. -/
theorem c4_cache_hit_bypasses_discovery (global : Option String)
    (origin u : String) (importOk : String → Bool) (urls : List String)
    (fetched : String → Option String) (h : importOk u = true) :
    importModule (some u) global origin importOk urls fetched
        = { modUrl := some u, discoveryEntered := false }
    ∧ importModule none (some u) origin importOk urls fetched
        = { modUrl := some u, discoveryEntered := false } := by
  constructor <;> simp [importModule, getOptimizedPawtectUrl, List.find?, h]

/-- C4 witness: a concrete cached location whose import succeeds is
returned without entering discovery. -/
theorem c4_cache_hit_bypasses_discovery_witness :
    importModule (some "https://wplace.live/_app/immutable/chunks/c.js")
      none "https://wplace.live" (fun _ => true) [] (fun _ => none)
      = { modUrl := some "https://wplace.live/_app/immutable/chunks/c.js"
          discoveryEntered := false } :=
  (c4_cache_hit_bypasses_discovery none "https://wplace.live"
    "https://wplace.live/_app/immutable/chunks/c.js" (fun _ => true) []
    (fun _ => none) rfl).1

/-! ### C5 -/

/-- C5: for the same logical output bytes, the `[ptr,len]` array shape,
the `ptr`/`len` object shape and the native-string shape all decode to
the identical string value. -/
theorem c5_output_shapes_agree (dec : List Nat → String) (mem : Nat → Nat)
    (ptr len : Nat) :
    decodePawtectOut dec mem (ModuleOut.arr ptr len)
        = some (dec (readBytes mem ptr len))
    ∧ decodePawtectOut dec mem (ModuleOut.obj ptr len)
        = some (dec (readBytes mem ptr len))
    ∧ decodePawtectOut dec mem (ModuleOut.str (dec (readBytes mem ptr len)))
        = some (dec (readBytes mem ptr len)) :=
  ⟨rfl, rfl, rfl⟩

/-! ### C6 -/

/-- C6: hook installation is idempotent — a second install is a no-op
leaving exactly one wrapper layer on `window.fetch` — so each matching
outbound call produces exactly one computation event. -/
theorem c6_install_idempotent (w : PageHookState) (c : FetchCall) :
    installPawtectHook (installPawtectHook w) = installPawtectHook w
    ∧ (installPawtectHook
        (installPawtectHook { hooked := false, wrapDepth := 0 })).wrapDepth = 1
    ∧ (c.method = "POST" → pixelUrlMatch c.url = true →
        c.bodyIsString = true →
        (pageFetch (installPawtectHook
          (installPawtectHook { hooked := false, wrapDepth := 0 })) c).1
          = [(c.url, c.body)]) := by
  refine ⟨?_, rfl, ?_⟩
  · by_cases h : w.hooked <;> simp [installPawtectHook, h]
  · intro h1 h2 h3
    simp [installPawtectHook, pageFetch, iterWrap, wrapFetch, originalFetch,
      hookEvents, h1, h2, h3]

/-- C6 witness: double installation from a fresh page leaves one wrapper
layer, and the scenario pixel POST produces exactly one computation
event. -/
theorem c6_install_idempotent_witness :
    installPawtectHook (installPawtectHook { hooked := false, wrapDepth := 0 })
      = installPawtectHook { hooked := false, wrapDepth := 0 }
    ∧ (pageFetch (installPawtectHook
        (installPawtectHook { hooked := false, wrapDepth := 0 }))
        pixelPostCall).1 = [(pixelPostCall.url, pixelPostCall.body)] :=
  ⟨(c6_install_idempotent { hooked := false, wrapDepth := 0 }
      pixelPostCall).1,
   (c6_install_idempotent { hooked := false, wrapDepth := 0 }
      pixelPostCall).2.2 rfl (by decide) rfl⟩

/-! ### C7 -/

/-- C7: the discovery scan returns the first candidate, in enumeration
order, that fetches successfully and matches the integrity-module
signature; on a match the found URL is persisted to the durable cache,
and on no match the scan returns `none` and leaves the cache
unchanged. -/
theorem c7_discovery_first_match (urls : List String)
    (fetched : String → Option String) (cache : Option String) :
    (discoverPawtectChunk urls fetched cache).found
      = (urls.filter fun u => isChunkCandidate u).find?
          (fun u => ((fetched u).map pawtectSignature).getD false)
    ∧ (discoverPawtectChunk urls fetched cache).cacheAfter
      = (match (discoverPawtectChunk urls fetched cache).found with
         | some u => some u
         | none => cache) := by
  constructor
  · rw [discoverPawtectChunk, ← discoverLoop_eq_find]
    cases h : discoverLoop fetched (urls.filter fun u => isChunkCandidate u) <;>
      simp [h]
  · rw [discoverPawtectChunk]
    cases h : discoverLoop fetched (urls.filter fun u => isChunkCandidate u) <;>
      simp [h]

/-! ### C8 -/

/-- C8 counterexample: the `computePawtectForT` handler broadcasts a
token with origin `'simple'`, which is not in the claimed enum
`\x7bpixel, seed, manual\x7d`. -/
theorem c8_manual_counterexample :
    ¬ (computePawtectForTBroadcast (some "x")).origin
        ∈ (["pixel", "seed", "manual"] : List String) := by
  decide

/-- C8 (amended): every `WPLACER_PAWTECT_TOKEN` broadcast carries an
origin tag drawn from `\x7bpixel, seed, simple\x7d` — `computePawtect`
posts `'pixel'`, `seedPawtect` posts `'seed'`, and `computePawtectForT`
posts `'simple'` (not `'manual'`). -/
theorem c8_origin_tags (tok : Option String) (dec : List Nat → String)
    (mem : Nat → Nat) (out : ModuleOut) :
    (computePawtectFinish dec mem out).1.origin
        ∈ (["pixel", "seed", "simple"] : List String)
    ∧ (seedPawtectBroadcast tok).origin
        ∈ (["pixel", "seed", "simple"] : List String)
    ∧ (computePawtectForTBroadcast tok).origin
        ∈ (["pixel", "seed", "simple"] : List String) := by
  refine ⟨?_, ?_, ?_⟩ <;>
    simp [computePawtectFinish, seedPawtectBroadcast,
      computePawtectForTBroadcast]

/-! ### C9 -/

/-- C9: the overdue-triggered cache clear and the half-threshold cache
clear are not mutually exclusive — there is a WAITING tick (with
monotone observation times) in which both fire. -/
theorem c9_double_clear_tick :
    ∃ s0 tCheck tReset tHalf : Int,
      s0 ≤ tCheck ∧ tCheck ≤ tReset ∧ tReset ≤ tHalf
      ∧ (pollTick (some s0) true true true 0 tCheck tReset tHalf).overdueClear
          = true
      ∧ (pollTick (some s0) true true true 0 tCheck tReset tHalf).halfClear
          = true :=
  ⟨0, 30001, 30001, 45002, by decide⟩

/-! ### C10 -/

/-- C10: when the module output has an unrecognized shape,
`computePawtect` still posts the `WPLACER_PAWTECT_TOKEN` broadcast with
a null token field and returns null. -/
theorem c10_unrecognized_shape_broadcasts_null (dec : List Nat → String)
    (mem : Nat → Nat) :
    computePawtectFinish dec mem ModuleOut.other
      = ({ token := none, origin := "pixel" }, none) :=
  rfl

end Wplacer
